import Mathlib

/-!
Verification of the Early Parkinson's Disease Detection web application
(Flask app with two CNN classifiers over hand-drawn spiral and wave images).

The development shallowly embeds the Python source:
* `utils/report_generator.py` — decision fusion, narrative selection and the
  HTML report template (`ReportGenerator.generate_report`);
* `utils/image_processor.py` — image preprocessing (`process_spiral`,
  `process_wave`) and Grad-CAM normalization (`make_spiral_gradcam`,
  `make_wave_gradcam`);
* `utils/model_loader.py` — the `ModelLoader` state machine;
* `app.py` — the `/analyze` endpoint.

Python floats are modelled as exact rationals (`ℚ`), 8-bit pixels as `Nat`,
external library primitives (cv2 resize/imread, keras model construction,
inference) as explicit function parameters or environment records, and
exceptions as `Option`/`Except`/boolean results.
-/

/-! ## Decision fusion (`utils/report_generator.py`, lines 59-75) -/

/-- Result of the decision-fusion block of `ReportGenerator.generate_report`:
the confidence level, the confidence source label and the overall
classification flag. -/
structure FusionResult where
  confidence_level : ℚ
  confidence_source : String
  has_parkinsons : Bool
deriving DecidableEq, Repr

/-- Embedding of the "New confidence level logic" of
`ReportGenerator.generate_report` (lines 64-75): `if spiral_pred <= 0.5`
take the spiral score as (negative) confidence, `elif wave_pred <= 0.5`
take the wave score, else positive with confidence `max(spiral_pred, wave_pred)`. -/
def fuseDecision (spiral_pred wave_pred : ℚ) : FusionResult :=
  if spiral_pred ≤ 0.5 then
    ⟨spiral_pred, "Negative", false⟩
  else if wave_pred ≤ 0.5 then
    ⟨wave_pred, "Negative", false⟩
  else
    ⟨max spiral_pred wave_pred, "Positive", true⟩

/-- The three narrative strings chosen together by `generate_report`
(lines 77-93). -/
structure Narrative where
  result_message : String
  next_steps : String
  gradcam_desc : String
deriving DecidableEq, Repr

/-- Narrative emitted on the low-confidence (negative) branch
(lines 78-81 of `report_generator.py`). -/
def negNarrative : Narrative :=
  { result_message := "No significant indicators of Parkinson\x27s disease detected"
    next_steps := "Continue with regular health check-ups and maintain a healthy lifestyle. If you have any concerns, consult with your healthcare provider during your next routine visit."
    gradcam_desc := "The analysis shows minimal to no areas of concern in your drawings. The heatmap highlights are within normal ranges." }

/-- Narrative emitted on the high-confidence (positive) branch
(lines 82-93 of `report_generator.py`), including the red/yellow/blue
heatmap-reading legend. -/
def posNarrative : Narrative :=
  { result_message := "Our analysis indicates potential early signs of Parkinson\x27s disease"
    next_steps := "We recommend consulting a neurologist within the next 2-4 weeks for a professional evaluation."
    gradcam_desc := "The heatmap analysis of your drawings shows areas of potential concern:\n\n• Red regions indicate significant inconsistencies in drawing patterns\n\n• Yellow areas show moderate variations from expected patterns\n\n• Blue areas represent slight deviations from typical drawing characteristics\n\nThese highlighted regions are analyzed by our AI model to detect early indicators of Parkinson\x27s disease." }

/-- Narrative selection of `generate_report`:
`if confidence_level <= 0.5` the reassuring narrative, else the concern
narrative (lines 78-93). -/
def narrativeFor (confidence_level : ℚ) : Narrative :=
  if confidence_level ≤ 0.5 then negNarrative else posNarrative

/-! ## Grad-CAM normalization (`utils/image_processor.py`, lines 24-75).

The heatmap produced by `conv_outputs @ pooled_grads[..., tf.newaxis]`
(the weighted sum of feature maps) is modelled as a list of rationals in
row-major order; `tf.reduce_max` over the tensor is `listMax`. -/

/-- Maximum entry of a list of rationals; `tf.reduce_max` over a non-empty
tensor flattened in row-major order (the `[]` case, which TensorFlow would
reject, is given the junk value 0). -/
def listMax : List ℚ → ℚ
  | [] => 0
  | x :: xs => xs.foldl max x

/-- Weighted sum of feature maps, `conv_outputs @ pooled_grads` followed by
`tf.squeeze`, flattened to row-major order: entry `(i,j)` is
`Σ_c conv[i][j][c] * g[c]`. -/
def weightedSumHeatmap (conv_outputs : List (List (List ℚ))) (pooled_grads : List ℚ) : List ℚ :=
  (conv_outputs.map fun row =>
    row.map fun cell => ((cell.zip pooled_grads).map fun p => p.1 * p.2).sum).flatten

/-- Embedding of the normalization step of `ImageProcessor.make_spiral_gradcam`
(line 49): `heatmap = tf.maximum(heatmap, 0) / tf.reduce_max(heatmap + 1e-8)`.
Note the spiral variant adds the epsilon inside the `reduce_max`, elementwise
on the raw (pre-ReLU) heatmap. -/
def make_spiral_gradcam (heatmap : List ℚ) : List ℚ :=
  let denom := listMax (heatmap.map (· + 1e-8))
  heatmap.map fun x => max x 0 / denom

/-- Embedding of the normalization step of `ImageProcessor.make_wave_gradcam`
(lines 73-74): `heatmap = tf.maximum(heatmap, 0)` then
`heatmap = heatmap / (tf.reduce_max(heatmap) + 1e-10)`. -/
def make_wave_gradcam (heatmap : List ℚ) : List ℚ :=
  let clipped := heatmap.map fun x => max x 0
  let denom := listMax clipped + 1e-10
  clipped.map fun x => x / denom

lemma listMax_foldl_le (x : ℚ) (xs : List ℚ) : x ≤ xs.foldl max x := by
  induction xs generalizing x with
  | nil => exact le_refl x
  | cons y ys ih =>
      calc x ≤ max x y := le_max_left x y
        _ ≤ ys.foldl max (max x y) := ih (max x y)

lemma foldl_max_le_of_mem (xs : List ℚ) : ∀ (x y : ℚ), y ∈ xs → y ≤ xs.foldl max x := by
  induction xs with
  | nil => intro x y hy; cases hy
  | cons z zs ih =>
      intro x y hy
      rcases List.mem_cons.mp hy with h | h
      · subst h
        calc y ≤ max x y := le_max_right x y
          _ ≤ zs.foldl max (max x y) := listMax_foldl_le _ zs
      · exact ih (max x z) y h

lemma le_listMax (x : ℚ) (xs : List ℚ) : ∀ y ∈ x :: xs, y ≤ listMax (x :: xs) := by
  intro y hy
  rcases List.mem_cons.mp hy with h | h
  · subst h; exact listMax_foldl_le y xs
  · exact foldl_max_le_of_mem xs x y h

lemma listMax_mem (x : ℚ) (xs : List ℚ) : listMax (x :: xs) ∈ x :: xs := by
  induction xs generalizing x with
  | nil => simp [listMax]
  | cons z zs ih =>
      have h := ih (max x z)
      have hcast : listMax (x :: z :: zs) = listMax (max x z :: zs) := rfl
      rw [hcast]
      rcases List.mem_cons.mp h with h' | h'
      · rcases max_choice x z with hm | hm
        · exact List.mem_cons.mpr (Or.inl (h'.trans hm))
        · exact List.mem_cons.mpr (Or.inr (List.mem_cons.mpr (Or.inl (h'.trans hm))))
      · exact List.mem_cons.mpr (Or.inr (List.mem_cons.mpr (Or.inr h')))

lemma listMax_map (f : ℚ → ℚ) (hf : ∀ a b, f (max a b) = max (f a) (f b)) :
    ∀ (x : ℚ) (xs : List ℚ), listMax ((x :: xs).map f) = f (listMax (x :: xs)) := by
  intro x xs
  induction xs generalizing x with
  | nil => simp [listMax]
  | cons z zs ih =>
      have h1 : listMax ((x :: z :: zs).map f) = listMax ((max x z :: zs).map f) := by
        show (zs.map f).foldl max (max (f x) (f z)) = (zs.map f).foldl max (f (max x z))
        rw [hf]
      rw [h1, ih (max x z)]
      rfl

lemma make_spiral_gradcam_eq (x : ℚ) (xs : List ℚ) :
    make_spiral_gradcam (x :: xs)
      = (x :: xs).map fun y => max y 0 / (listMax (x :: xs) + 1e-8) := by
  have h := listMax_map (fun y => y + 1e-8)
    (fun a b => (max_add_add_right a b (1e-8 : ℚ)).symm) x xs
  simp only [make_spiral_gradcam]
  rw [h]

lemma make_wave_gradcam_eq (x : ℚ) (xs : List ℚ) :
    make_wave_gradcam (x :: xs)
      = (x :: xs).map fun y => max y 0 / (max (listMax (x :: xs)) 0 + 1e-10) := by
  have h := listMax_map (fun y => max y 0)
    (fun a b => by simpa using (max_max_max_comm a 0 b 0).symm) x xs
  simp only [make_wave_gradcam]
  rw [h, List.map_map]
  rfl

/-- C2 (amended): for every non-empty raw heatmap (weighted sum of feature
maps), both Grad-CAM normalizations stay in [0,1] — in exact arithmetic in
fact in [0,1): no entry ever equals 1; when the raw maximum `m` is positive
the largest output entry is exactly `m / (m + ε)` (ε = 1e-8 for spiral,
1e-10 for wave), and when the raw heatmap is entirely non-positive the
output is all zeros; ReLU clipping is applied before normalization. -/
theorem gradcam_unit_interval (x : ℚ) (xs : List ℚ) :
    ((∀ y ∈ make_spiral_gradcam (x :: xs), 0 ≤ y ∧ y < 1)
      ∧ ∀ y ∈ make_wave_gradcam (x :: xs), 0 ≤ y ∧ y < 1)
  ∧ (listMax (x :: xs) ≤ 0 →
      (∀ y ∈ make_spiral_gradcam (x :: xs), y = 0)
        ∧ ∀ y ∈ make_wave_gradcam (x :: xs), y = 0)
  ∧ (0 < listMax (x :: xs) →
      (listMax (x :: xs) / (listMax (x :: xs) + 1e-8) ∈ make_spiral_gradcam (x :: xs)
        ∧ ∀ y ∈ make_spiral_gradcam (x :: xs),
            y ≤ listMax (x :: xs) / (listMax (x :: xs) + 1e-8))
      ∧ (listMax (x :: xs) / (listMax (x :: xs) + 1e-10) ∈ make_wave_gradcam (x :: xs)
        ∧ ∀ y ∈ make_wave_gradcam (x :: xs),
            y ≤ listMax (x :: xs) / (listMax (x :: xs) + 1e-10))) := by
  have hle := le_listMax x xs
  have hmem := listMax_mem x xs
  refine ⟨⟨?_, ?_⟩, ?_, ?_⟩
  · rw [make_spiral_gradcam_eq]
    intro y hy
    obtain ⟨z, hz, rfl⟩ := List.mem_map.mp hy
    by_cases h : 0 < listMax (x :: xs)
    · have hd : 0 < listMax (x :: xs) + 1e-8 := by positivity
      refine ⟨div_nonneg (le_max_right z 0) hd.le, (div_lt_one hd).mpr ?_⟩
      have h1 : max z 0 ≤ listMax (x :: xs) := max_le (hle z hz) h.le
      have h2 : listMax (x :: xs) < listMax (x :: xs) + 1e-8 := by
        have : (0:ℚ) < 1e-8 := by norm_num
        linarith
      exact lt_of_le_of_lt h1 h2
    · push_neg at h
      have hz0 : z ≤ 0 := (hle z hz).trans h
      rw [max_eq_right hz0, zero_div]
      norm_num
  · rw [make_wave_gradcam_eq]
    intro y hy
    obtain ⟨z, hz, rfl⟩ := List.mem_map.mp hy
    have hd : 0 < max (listMax (x :: xs)) 0 + 1e-10 := by
      have : (0:ℚ) ≤ max (listMax (x :: xs)) 0 := le_max_right _ _
      have : (0:ℚ) < 1e-10 := by norm_num
      linarith
    refine ⟨div_nonneg (le_max_right z 0) hd.le, (div_lt_one hd).mpr ?_⟩
    have h1 : max z 0 ≤ max (listMax (x :: xs)) 0 := max_le_max (hle z hz) le_rfl
    have h2 : (0:ℚ) < 1e-10 := by norm_num
    linarith
  · intro h
    constructor
    · rw [make_spiral_gradcam_eq]
      intro y hy
      obtain ⟨z, hz, rfl⟩ := List.mem_map.mp hy
      rw [max_eq_right ((hle z hz).trans h), zero_div]
    · rw [make_wave_gradcam_eq]
      intro y hy
      obtain ⟨z, hz, rfl⟩ := List.mem_map.mp hy
      rw [max_eq_right ((hle z hz).trans h), zero_div]
  · intro h
    have hd : 0 < listMax (x :: xs) + 1e-8 := by positivity
    have hd10 : 0 < listMax (x :: xs) + 1e-10 := by positivity
    refine ⟨⟨?_, ?_⟩, ?_, ?_⟩
    · rw [make_spiral_gradcam_eq]
      exact List.mem_map.mpr ⟨listMax (x :: xs), hmem, by rw [max_eq_left h.le]⟩
    · rw [make_spiral_gradcam_eq]
      intro y hy
      obtain ⟨z, hz, rfl⟩ := List.mem_map.mp hy
      have h1 : max z 0 ≤ listMax (x :: xs) := max_le (hle z hz) h.le
      gcongr
    · rw [make_wave_gradcam_eq]
      refine List.mem_map.mpr ⟨listMax (x :: xs), hmem, ?_⟩
      rw [max_eq_left h.le]
    · rw [make_wave_gradcam_eq]
      intro y hy
      obtain ⟨z, hz, rfl⟩ := List.mem_map.mp hy
      rw [max_eq_left h.le]
      have h1 : max z 0 ≤ listMax (x :: xs) := max_le (hle z hz) h.le
      gcongr

/-- C2 counterexample: for the raw heatmap `[1e-8]` (a weighted sum with a
strictly positive entry, so not entirely non-positive), the spiral Grad-CAM
output is `[1/2]` and contains no entry equal to 1, refuting the claim that
the output contains a value equal to 1 whenever the raw weighted sum is not
entirely non-positive. -/
theorem gradcam_no_entry_equal_one :
    ¬ listMax [(1e-8 : ℚ)] ≤ 0
      ∧ make_spiral_gradcam [(1e-8 : ℚ)] = [1/2]
      ∧ (1 : ℚ) ∉ make_spiral_gradcam [(1e-8 : ℚ)] := by
  refine ⟨?_, ?_, ?_⟩
  · simp only [listMax, List.foldl]
    norm_num
  · simp only [make_spiral_gradcam, listMax, List.map, List.foldl]
    rw [max_eq_left (by norm_num : (0:ℚ) ≤ 1e-8)]
    norm_num
  · simp only [make_spiral_gradcam, listMax, List.map, List.foldl]
    rw [max_eq_left (by norm_num : (0:ℚ) ≤ 1e-8)]
    norm_num

/-- C1: decision fusion is conjunctive with an ordered asymmetric confidence:
for predictions in [0,1] the fused result is positive iff both scores exceed
0.5, in which case the confidence is `max(p_s, p_w)` and the label is
"Positive"; otherwise the result is negative with label "Negative" and the
confidence of the score that triggered the negative branch, the spiral score
being checked first. -/
theorem fusion_conjunctive_asymmetric (ps pw : ℚ)
    (hps0 : 0 ≤ ps) (hps1 : ps ≤ 1) (hpw0 : 0 ≤ pw) (hpw1 : pw ≤ 1) :
    ((fuseDecision ps pw).has_parkinsons = true ↔ (0.5 < ps ∧ 0.5 < pw))
  ∧ (0.5 < ps → 0.5 < pw →
      fuseDecision ps pw = ⟨max ps pw, "Positive", true⟩)
  ∧ (ps ≤ 0.5 → fuseDecision ps pw = ⟨ps, "Negative", false⟩)
  ∧ (0.5 < ps → pw ≤ 0.5 → fuseDecision ps pw = ⟨pw, "Negative", false⟩) := by
  by_cases h1 : ps ≤ (0.5 : ℚ)
  · simp only [fuseDecision, if_pos h1]
    refine ⟨?_, ?_, ?_, ?_⟩
    · simp only [Bool.false_eq_true, false_iff]
      intro hc
      exact absurd h1 (not_le.mpr hc.1)
    · intro hps _
      exact absurd h1 (not_le.mpr hps)
    · intro _; trivial
    · intro hps _
      exact absurd h1 (not_le.mpr hps)
  · by_cases h2 : pw ≤ (0.5 : ℚ)
    · simp only [fuseDecision, if_neg h1, if_pos h2]
      refine ⟨?_, ?_, ?_, ?_⟩
      · simp only [Bool.false_eq_true, false_iff]
        intro hc
        exact absurd h2 (not_le.mpr hc.2)
      · intro _ hpw
        exact absurd h2 (not_le.mpr hpw)
      · intro hps
        exact absurd hps h1
      · intro _ _; trivial
    · simp only [fuseDecision, if_neg h1, if_neg h2]
      refine ⟨?_, ?_, ?_, ?_⟩
      · simp only [true_iff]
        exact ⟨not_le.mp h1, not_le.mp h2⟩
      · intro _ _; trivial
      · intro hps
        exact absurd hps h1
      · intro _ hpw
        exact absurd hpw h2

/-- Witness for C1: end-to-end scenario `p_s = 0.7`, `p_w = 0.6` gives the
positive fused result with confidence `max 0.7 0.6 = 0.7`. -/
theorem fusion_conjunctive_asymmetric_witness :
    fuseDecision 0.7 0.6 = ⟨0.7, "Positive", true⟩ := by
  have h := (fusion_conjunctive_asymmetric 0.7 0.6 (by norm_num) (by norm_num)
    (by norm_num) (by norm_num)).2.1 (by norm_num) (by norm_num)
  rw [h]
  have hmax : max (0.7 : ℚ) 0.6 = 0.7 := max_eq_left (by norm_num)
  rw [hmax]

/-- C10: the narrative can never contradict the fused classification: the
selected confidence level is at most 0.5 exactly when the fused result is
negative, so the concern narrative (referral and heatmap legend) is chosen
iff the result is positive and the reassuring narrative iff it is negative. -/
theorem narrative_matches_fusion (ps pw : ℚ)
    (hps0 : 0 ≤ ps) (hps1 : ps ≤ 1) (hpw0 : 0 ≤ pw) (hpw1 : pw ≤ 1) :
    ((fuseDecision ps pw).confidence_level ≤ 0.5
      ↔ (fuseDecision ps pw).has_parkinsons = false)
  ∧ (narrativeFor (fuseDecision ps pw).confidence_level = posNarrative
      ↔ (fuseDecision ps pw).has_parkinsons = true)
  ∧ (narrativeFor (fuseDecision ps pw).confidence_level = negNarrative
      ↔ (fuseDecision ps pw).has_parkinsons = false) := by
  have hne : negNarrative ≠ posNarrative := by decide
  have key : (fuseDecision ps pw).confidence_level ≤ 0.5
      ↔ (fuseDecision ps pw).has_parkinsons = false := by
    by_cases h1 : ps ≤ (0.5 : ℚ)
    · simp only [fuseDecision, if_pos h1]
      simpa using h1
    · by_cases h2 : pw ≤ (0.5 : ℚ)
      · simp only [fuseDecision, if_neg h1, if_pos h2]
        simpa using h2
      · simp only [fuseDecision, if_neg h1, if_neg h2]
        simp only [Bool.true_eq_false, iff_false, not_le]
        exact lt_max_of_lt_left (not_le.mp h1)
  refine ⟨key, ?_, ?_⟩
  · unfold narrativeFor
    by_cases hc : (fuseDecision ps pw).confidence_level ≤ (0.5 : ℚ)
    · rw [if_pos hc]
      have := key.mp hc
      simp [this, hne]
    · rw [if_neg hc]
      have : (fuseDecision ps pw).has_parkinsons = true := by
        rcases Bool.eq_false_or_eq_true (fuseDecision ps pw).has_parkinsons with h | h
        · exact h
        · exact absurd (key.mpr h) hc
      simp [this]
  · unfold narrativeFor
    by_cases hc : (fuseDecision ps pw).confidence_level ≤ (0.5 : ℚ)
    · rw [if_pos hc]
      have := key.mp hc
      simp [this]
    · rw [if_neg hc]
      have : (fuseDecision ps pw).has_parkinsons = true := by
        rcases Bool.eq_false_or_eq_true (fuseDecision ps pw).has_parkinsons with h | h
        · exact h
        · exact absurd (key.mpr h) hc
      simp only [this, Bool.true_eq_false, iff_false]
      exact fun hq => hne hq.symm

/-- Witness for C10: for `p_s = 0.3`, `p_w = 0.9` the fused result is negative
and the reassuring narrative is selected. -/
theorem narrative_matches_fusion_witness :
    narrativeFor (fuseDecision 0.3 0.9).confidence_level = negNarrative := by
  have h := (narrative_matches_fusion 0.3 0.9 (by norm_num) (by norm_num)
    (by norm_num) (by norm_num)).2.2
  apply h.mpr
  simp only [fuseDecision, if_pos (by norm_num : (0.3:ℚ) ≤ 0.5)]

/-! ## Image preprocessing (`utils/image_processor.py`, lines 10-22).

Images are dense 8-bit arrays: a pixel access function together with the
array's shape. `cv2.resize` is an external library primitive and enters as
an explicit function parameter constrained by its documented contract
(`CvResizeSpec`). -/

/-- Single-channel (grayscale) image: `rows × cols` array of 8-bit values. -/
structure GrayImage where
  rows : Nat
  cols : Nat
  px : Nat → Nat → Nat

/-- Three-channel BGR color image as read by `cv2.imread`; a pixel is the
`(blue, green, red)` triple. -/
structure ColorImage where
  rows : Nat
  cols : Nat
  px : Nat → Nat → Nat × Nat × Nat

/-- OpenCV `cv2.cvtColor(img, cv2.COLOR_BGR2GRAY)` on 8-bit input: the
fixed-point letterbox formula `Y = (B*1868 + G*9617 + R*4899 + 8192) >> 14`
(coefficients 0.114/0.587/0.299 at 14 fractional bits, round half up). -/
def cvtColor_BGR2GRAY (img : ColorImage) : GrayImage :=
  { rows := img.rows
    cols := img.cols
    px := fun i j =>
      let p := img.px i j
      (1868 * p.1 + 9617 * p.2.1 + 4899 * p.2.2 + 8192) / 16384 }

/-- Contract of `cv2.resize(gray, (w, h))` for 8-bit single-channel input:
OpenCV's `dsize` argument is `(width, height)`, so the output has `h` rows
and `w` columns, and saturated 8-bit output values stay in `[0, 255]`. -/
def CvResizeSpec (resize : GrayImage → Nat → Nat → GrayImage) : Prop :=
  ∀ g w h, (resize g w h).rows = h ∧ (resize g w h).cols = w
    ∧ ∀ i j, (resize g w h).px i j ≤ 255

/-- Embedding of `ImageProcessor.process_spiral`: BGR→gray conversion,
`cv2.resize(gray, (256, 256))`, then inversion `gray = 255 - gray`. -/
def process_spiral (resize : GrayImage → Nat → Nat → GrayImage)
    (img : ColorImage) : GrayImage :=
  let gray := cvtColor_BGR2GRAY img
  let gray2 := resize gray 256 256
  { rows := gray2.rows, cols := gray2.cols, px := fun i j => 255 - gray2.px i j }

/-- Embedding of `ImageProcessor.process_wave`: BGR→gray conversion,
`cv2.resize(gray, (550, 250))` (550 wide, 250 tall), then inversion. -/
def process_wave (resize : GrayImage → Nat → Nat → GrayImage)
    (img : ColorImage) : GrayImage :=
  let gray := cvtColor_BGR2GRAY img
  let gray2 := resize gray 550 250
  { rows := gray2.rows, cols := gray2.cols, px := fun i j => 255 - gray2.px i j }

/-- C3: for every input image and every resize primitive satisfying the
OpenCV contract, `process_spiral` returns a single-channel 256×256 image and
`process_wave` a single-channel image 550 wide by 250 tall, and every output
pixel is exactly `255 -` the corresponding grayscale pixel of the resized
input (true 8-bit inversion, since the resized pixel is at most 255). -/
theorem process_shape_and_inversion (resize : GrayImage → Nat → Nat → GrayImage)
    (hres : CvResizeSpec resize) (img : ColorImage) :
    ((process_spiral resize img).rows = 256 ∧ (process_spiral resize img).cols = 256
      ∧ ∀ i j, (process_spiral resize img).px i j
            = 255 - (resize (cvtColor_BGR2GRAY img) 256 256).px i j
          ∧ (resize (cvtColor_BGR2GRAY img) 256 256).px i j ≤ 255)
  ∧ ((process_wave resize img).rows = 250 ∧ (process_wave resize img).cols = 550
      ∧ ∀ i j, (process_wave resize img).px i j
            = 255 - (resize (cvtColor_BGR2GRAY img) 550 250).px i j
          ∧ (resize (cvtColor_BGR2GRAY img) 550 250).px i j ≤ 255) := by
  obtain ⟨hr1, hc1, hp1⟩ := hres (cvtColor_BGR2GRAY img) 256 256
  obtain ⟨hr2, hc2, hp2⟩ := hres (cvtColor_BGR2GRAY img) 550 250
  exact ⟨⟨hr1, hc1, fun i j => ⟨rfl, hp1 i j⟩⟩, ⟨hr2, hc2, fun i j => ⟨rfl, hp2 i j⟩⟩⟩

/-- Stub satisfying the `cv2.resize` contract (used only to witness
`process_shape_and_inversion` at a concrete input): clamp the top-left
pixels into shape `(h, w)`. -/
def clampResize (g : GrayImage) (w h : Nat) : GrayImage :=
  { rows := h, cols := w, px := fun i j => min (g.px i j) 255 }

lemma clampResize_spec : CvResizeSpec clampResize :=
  fun _ _ _ => ⟨rfl, rfl, fun _ _ => min_le_right _ _⟩

/-- Gray test image used by concrete witnesses. -/
def testColorImage : ColorImage :=
  { rows := 2, cols := 2, px := fun _ _ => (10, 20, 30) }

/-- Witness for C3 at the concrete resize stub and test image. -/
theorem process_shape_and_inversion_witness :
    (process_spiral clampResize testColorImage).rows = 256
      ∧ (process_wave clampResize testColorImage).cols = 550
      ∧ (process_spiral clampResize testColorImage).px 0 0
          = 255 - (clampResize (cvtColor_BGR2GRAY testColorImage) 256 256).px 0 0 :=
  ⟨(process_shape_and_inversion clampResize clampResize_spec testColorImage).1.1,
   (process_shape_and_inversion clampResize clampResize_spec testColorImage).2.2.1,
   ((process_shape_and_inversion clampResize clampResize_spec testColorImage).1.2.2 0 0).1⟩

/-! ## Model loading (`utils/model_loader.py`).

Keras and the filesystem are modelled by an environment record `TFEnv`:
which paths exist, what the config files contain, whether
`keras.models.model_from_json` yields a model, and whether `load_weights`
and the dry-run `predict` succeed (a `false`/`none` models the raised
exception, which `load_models` catches). Compiling with the fixed Adam
optimizer configuration has no failure mode that the code distinguishes,
so it does not appear in the environment. -/

/-- Opaque handle to a constructed Keras model. -/
structure KerasModel where
  tag : String
deriving DecidableEq, Repr

/-- Environment: filesystem and Keras behaviour seen by `ModelLoader`. -/
structure TFEnv where
  pathExists : String → Bool
  fileContents : String → String
  model_from_json : String → Option KerasModel
  loadWeightsOk : KerasModel → String → Bool
  predictOk : KerasModel → Bool

/-- State of a `ModelLoader` instance (fields of `ModelLoader.__init__`). -/
structure ModelLoader where
  spiral_model : Option KerasModel
  wave_model : Option KerasModel
  spiral_last_conv : String
  wave_last_conv : String
  models_loaded : Bool
deriving DecidableEq, Repr

/-- A freshly constructed `ModelLoader()`: no models, the two constant layer
names, not loaded. -/
def initLoader : ModelLoader :=
  { spiral_model := none
    wave_model := none
    spiral_last_conv := "conv2d_3"
    wave_last_conv := "convo_3"
    models_loaded := false }

/-- The four required artifacts checked by `load_models` (lines 25-30). -/
def requiredFiles : List String :=
  ["models/spiral_config.json", "models/wave_config.json",
   "models/spiral.weights.new.h5", "models/wave.weights.new.h5"]

/-- The `except` clause of `load_models` (lines 94-99): both classifiers set
to `None`, loaded flag cleared; the constant layer-name fields are untouched. -/
def resetLoader (self : ModelLoader) : ModelLoader :=
  { self with spiral_model := none, wave_model := none, models_loaded := false }

/-- Embedding of `ModelLoader.load_models`: early return when already
loaded; otherwise check the four artifacts, build each model from its JSON
config (a `None` result raises `ValueError`), load its weights, run the two
dry-run predictions; any failure takes the `except` path, which resets the
loader and returns `False` instead of raising. -/
def load_models (self : ModelLoader) (env : TFEnv) : ModelLoader × Bool :=
  if self.models_loaded then (self, true)
  else if requiredFiles.all env.pathExists then
    match env.model_from_json (env.fileContents "models/spiral_config.json") with
    | none => (resetLoader self, false)
    | some sm =>
      if env.loadWeightsOk sm "models/spiral.weights.new.h5" then
        match env.model_from_json (env.fileContents "models/wave_config.json") with
        | none => (resetLoader self, false)
        | some wm =>
          if env.loadWeightsOk wm "models/wave.weights.new.h5" then
            if env.predictOk sm && env.predictOk wm then
              ({ self with spiral_model := some sm, wave_model := some wm,
                           models_loaded := true }, true)
            else (resetLoader self, false)
          else (resetLoader self, false)
      else (resetLoader self, false)
  else (resetLoader self, false)

/-- Module initialization of `app.py` (lines 22-25): construct the loader,
call `load_models`, and `sys.exit(1)` (modelled as `Except.error ()`) when it
reports failure. -/
def appInit (env : TFEnv) : Except Unit ModelLoader :=
  let r := load_models initLoader env
  if r.2 then Except.ok r.1 else Except.error ()

/-- Embedding of `ModelLoader.get_spiral_model`: lazy load when not loaded,
`RuntimeError` (modelled as `Except.error`) when that load fails, otherwise
the (possibly lazily re-read) `self.spiral_model` plus the updated state. -/
def get_spiral_model (self : ModelLoader) (env : TFEnv) :
    Except String (Option KerasModel × ModelLoader) :=
  if !self.models_loaded then
    let r := load_models self env
    if !r.2 then Except.error "Failed to load models"
    else Except.ok (r.1.spiral_model, r.1)
  else Except.ok (self.spiral_model, self)

/-- Embedding of `ModelLoader.get_wave_model` (same contract for the wave
classifier). -/
def get_wave_model (self : ModelLoader) (env : TFEnv) :
    Except String (Option KerasModel × ModelLoader) :=
  if !self.models_loaded then
    let r := load_models self env
    if !r.2 then Except.error "Failed to load models"
    else Except.ok (r.1.wave_model, r.1)
  else Except.ok (self.wave_model, self)

/-- Embedding of `ModelLoader.get_last_conv_layer`: a pure field lookup. -/
def get_last_conv_layer (self : ModelLoader) (is_wave : Bool) : String :=
  if is_wave then self.wave_last_conv else self.spiral_last_conv

lemma load_models_spec (self : ModelLoader) (env : TFEnv) :
    (self.models_loaded = true ∧ load_models self env = (self, true))
  ∨ (self.models_loaded = false ∧ load_models self env = (resetLoader self, false))
  ∨ (self.models_loaded = false ∧ ∃ sm wm, load_models self env
      = ({ self with spiral_model := some sm, wave_model := some wm,
                     models_loaded := true }, true)) := by
  by_cases hl : self.models_loaded
  · exact Or.inl ⟨hl, by simp [load_models, hl]⟩
  · right
    have hl' : self.models_loaded = false := Bool.eq_false_iff.mpr hl
    by_cases hall : requiredFiles.all env.pathExists
    · cases hsj : env.model_from_json (env.fileContents "models/spiral_config.json") with
      | none => exact Or.inl ⟨hl', by simp [load_models, hl', hall, hsj]⟩
      | some sm =>
          by_cases hw1 : env.loadWeightsOk sm "models/spiral.weights.new.h5"
          · cases hwj : env.model_from_json (env.fileContents "models/wave_config.json") with
            | none => exact Or.inl ⟨hl', by simp [load_models, hl', hall, hsj, hw1, hwj]⟩
            | some wm =>
                by_cases hw2 : env.loadWeightsOk wm "models/wave.weights.new.h5"
                · by_cases hp : env.predictOk sm && env.predictOk wm
                  · exact Or.inr ⟨hl', sm, wm,
                      by simp [load_models, hl', hall, hsj, hw1, hwj, hw2, hp]⟩
                  · exact Or.inl ⟨hl',
                      by simp [load_models, hl', hall, hsj, hw1, hwj, hw2,
                               Bool.eq_false_iff.mpr hp]⟩
                · exact Or.inl ⟨hl',
                    by simp [load_models, hl', hall, hsj, hw1, hwj,
                             Bool.eq_false_iff.mpr hw2]⟩
          · exact Or.inl ⟨hl',
              by simp [load_models, hl', hall, hsj, Bool.eq_false_iff.mpr hw1]⟩
    · exact Or.inl ⟨hl', by simp [load_models, hl', Bool.eq_false_iff.mpr hall]⟩

/-- C6: model loading fails when any of the four required artifacts is
missing; on any load failure both classifiers are reset to `None` with the
loaded flag cleared and the failure is reported by the `false` return value
(the total function raises nothing); at startup a reported failure makes
`appInit` exit (`Except.error`). -/
theorem load_models_failure_contract (self : ModelLoader) (env : TFEnv) :
    (self.models_loaded = false → requiredFiles.all env.pathExists = false →
        load_models self env = (resetLoader self, false))
  ∧ ((load_models self env).2 = false →
        (load_models self env).1.spiral_model = none
          ∧ (load_models self env).1.wave_model = none
          ∧ (load_models self env).1.models_loaded = false)
  ∧ ((load_models initLoader env).2 = false → appInit env = Except.error ()) := by
  refine ⟨?_, ?_, ?_⟩
  · intro hl hall
    simp [load_models, hl, hall]
  · rcases load_models_spec self env with ⟨_, heq⟩ | ⟨_, heq⟩ | ⟨_, sm, wm, heq⟩
    · rw [heq]; intro h; simp at h
    · rw [heq]; intro _; exact ⟨rfl, rfl, rfl⟩
    · rw [heq]; intro h; simp at h
  · intro h
    simp [appInit, h]

/-- Environment with every artifact missing and every Keras operation
failing (used by concrete witnesses). -/
def envMissing : TFEnv :=
  { pathExists := fun _ => false
    fileContents := fun _ => ""
    model_from_json := fun _ => none
    loadWeightsOk := fun _ _ => false
    predictOk := fun _ => false }

/-- Environment where all four artifacts exist and every Keras operation
succeeds (used by concrete witnesses). -/
def envOk : TFEnv :=
  { pathExists := fun _ => true
    fileContents := fun _ => "cfg"
    model_from_json := fun s => some ⟨s⟩
    loadWeightsOk := fun _ _ => true
    predictOk := fun _ => true }

/-- Witness for C6: with every artifact missing, a fresh loader's
`load_models` returns the reset state and `false`, and startup exits. -/
theorem load_models_failure_contract_witness :
    load_models initLoader envMissing = (resetLoader initLoader, false)
      ∧ appInit envMissing = Except.error () :=
  ⟨(load_models_failure_contract initLoader envMissing).1 rfl rfl,
   (load_models_failure_contract initLoader envMissing).2.2 rfl⟩

/-- C7: model loading is idempotent — after any call that returned success,
every subsequent `load_models` call (under any environment, in particular
without re-reading any artifact or re-running the dry-run predictions) is a
no-op returning the unchanged state and `true`. -/
theorem load_models_idempotent (l : ModelLoader) (env env2 : TFEnv)
    (h : (load_models l env).2 = true) :
    load_models (load_models l env).1 env2 = ((load_models l env).1, true) := by
  rcases load_models_spec l env with ⟨hl, heq⟩ | ⟨_, heq⟩ | ⟨_, sm, wm, heq⟩
  · rw [heq]
    simp [load_models, hl]
  · rw [heq] at h; simp at h
  · rw [heq]
    simp [load_models]

/-- Witness for C7: after a successful load, a repeat call succeeds as a
no-op even in an environment where every artifact is missing. -/
theorem load_models_idempotent_witness :
    load_models (load_models initLoader envOk).1 envMissing
      = ((load_models initLoader envOk).1, true) :=
  load_models_idempotent initLoader envOk envMissing rfl

/-- C8: the model getters trigger a lazy load exactly when not yet loaded and
error out ("Failed to load models") iff that load fails, returning the
corresponding classifier field otherwise; `get_last_conv_layer` is a pure
field lookup whose per-kind values are the constants "conv2d_3" (spiral) and
"convo_3" (wave), never touched by loading. -/
theorem get_model_lazy_contract (self : ModelLoader) (env : TFEnv) :
    ((get_spiral_model self env = Except.error "Failed to load models")
        ↔ (self.models_loaded = false ∧ (load_models self env).2 = false))
  ∧ ((get_wave_model self env = Except.error "Failed to load models")
        ↔ (self.models_loaded = false ∧ (load_models self env).2 = false))
  ∧ (self.models_loaded = true →
        get_spiral_model self env = Except.ok (self.spiral_model, self)
          ∧ get_wave_model self env = Except.ok (self.wave_model, self))
  ∧ (self.models_loaded = false → (load_models self env).2 = true →
        get_spiral_model self env
            = Except.ok ((load_models self env).1.spiral_model, (load_models self env).1)
          ∧ get_wave_model self env
            = Except.ok ((load_models self env).1.wave_model, (load_models self env).1))
  ∧ (get_last_conv_layer self false = self.spiral_last_conv
        ∧ get_last_conv_layer self true = self.wave_last_conv)
  ∧ ((load_models self env).1.spiral_last_conv = self.spiral_last_conv
        ∧ (load_models self env).1.wave_last_conv = self.wave_last_conv)
  ∧ (get_last_conv_layer initLoader false = "conv2d_3"
        ∧ get_last_conv_layer initLoader true = "convo_3") := by
  have hpres : (load_models self env).1.spiral_last_conv = self.spiral_last_conv
      ∧ (load_models self env).1.wave_last_conv = self.wave_last_conv := by
    rcases load_models_spec self env with ⟨_, heq⟩ | ⟨_, heq⟩ | ⟨_, sm, wm, heq⟩ <;>
      rw [heq] <;> exact ⟨rfl, rfl⟩
  by_cases hl : self.models_loaded
  · refine ⟨?_, ?_, ?_, ?_, ⟨rfl, rfl⟩, hpres, ⟨rfl, rfl⟩⟩
    · simp [get_spiral_model, hl]
    · simp [get_wave_model, hl]
    · intro _
      exact ⟨by simp [get_spiral_model, hl], by simp [get_wave_model, hl]⟩
    · intro hc
      rw [hl] at hc
      cases hc
  · have hl' : self.models_loaded = false := Bool.eq_false_iff.mpr hl
    by_cases hr : (load_models self env).2
    · refine ⟨?_, ?_, ?_, ?_, ⟨rfl, rfl⟩, hpres, ⟨rfl, rfl⟩⟩
      · simp [get_spiral_model, hl', hr]
      · simp [get_wave_model, hl', hr]
      · intro hc
        rw [hl'] at hc
        cases hc
      · intro _ _
        exact ⟨by simp [get_spiral_model, hl', hr], by simp [get_wave_model, hl', hr]⟩
    · have hr' : (load_models self env).2 = false := Bool.eq_false_iff.mpr hr
      refine ⟨?_, ?_, ?_, ?_, ⟨rfl, rfl⟩, hpres, ⟨rfl, rfl⟩⟩
      · simp [get_spiral_model, hl', hr']
      · simp [get_wave_model, hl', hr']
      · intro hc
        rw [hl'] at hc
        cases hc
      · intro _ hc
        rw [hr'] at hc
        cases hc

/-- Witness for C8: with every artifact missing, the lazy load fails and the
spiral getter raises, while the layer-name lookup still answers. -/
theorem get_model_lazy_contract_witness :
    get_spiral_model initLoader envMissing = Except.error "Failed to load models"
      ∧ get_last_conv_layer initLoader true = "convo_3" :=
  ⟨(get_model_lazy_contract initLoader envMissing).1.mpr ⟨rfl, rfl⟩,
   (get_model_lazy_contract initLoader envMissing).2.2.2.2.2.2.2⟩

/-! ## The analyze endpoint (`app.py`, lines 55-120).

The request carries the two uploaded files (`None` models a missing or
falsy upload) and the outcome of parsing the `user_info` form field:
`none` models every exception on the parsing path (`json.loads` failure,
missing field, `int()` conversion failure), `some u` the successfully
extracted name/age/gender triple. `cv2.imread` and
`ReportGenerator.generate_report` enter as function parameters; an
`Except.error` from the latter models an exception caught by the outer
handler (HTTP 500). The mutable filesystem slots (`static/uploads/*.png`,
`static/reports/report.html`) are the `ServerState`. -/

/-- Parsed user information: `name`, `age` (after `int()` conversion) and
`gender` from the JSON-encoded `user_info` form field. -/
structure UserInfo where
  name : String
  age : Int
  gender : String
deriving DecidableEq, Repr

/-- Python whitespace as stripped by `str.strip()`. -/
def isPySpace (c : Char) : Bool :=
  c == ' ' || c == '\t' || c == '\n' || c == '\r' || c == '\x0b' || c == '\x0c'

/-- Drop leading Python whitespace from a character list. -/
def dropLeadingWS : List Char → List Char
  | [] => []
  | c :: cs => if isPySpace c then dropLeadingWS cs else c :: cs

/-- Python `str.strip()`: remove whitespace from both ends. -/
def pyStrip (s : String) : String :=
  ⟨(dropLeadingWS ((dropLeadingWS s.data).reverse)).reverse⟩

/-- The validation predicate of `app.py` line 75 (negated: the code raises
`ValueError` when it fails): name non-empty after stripping, `18 <= age <= 60`,
gender one of "Male"/"Female"/"Other" after stripping. -/
def valid_user_info (u : UserInfo) : Bool :=
  !(pyStrip u.name == "") && (decide (18 ≤ u.age) && decide (u.age ≤ 60))
    && (pyStrip u.gender == "Male" || pyStrip u.gender == "Female"
        || pyStrip u.gender == "Other")

/-- HTTP response of the analyze endpoint: success with a report URL
(HTTP 200), a client error (HTTP 400) or a server error (HTTP 500), each
with its structured status and message. -/
inductive Response where
  | ok (report_url : String)
  | clientError (message : String)
  | serverError (message : String)
deriving DecidableEq, Repr

/-- Server-side filesystem state touched by `/analyze`: the single report
slot `static/reports/report.html` and the two upload slots. -/
structure ServerState where
  reportSlot : Option String
  spiralUpload : Option String
  waveUpload : Option String
deriving DecidableEq, Repr

/-- A request to `/analyze`: optional uploads and parsed user info. -/
structure AnalyzeRequest where
  spiral_file : Option String
  wave_file : Option String
  user_info : Option UserInfo
deriving DecidableEq, Repr

/-- Message of `app.py` lines 63-67. -/
def msgBothRequired : String := "Both spiral and wave drawings are required"

/-- Message of `app.py` lines 77-81. -/
def msgInvalidUser : String :=
  "Invalid user information. Please provide name, age (18-60), and gender."

/-- Message of `app.py` lines 94-98. -/
def msgBadImages : String := "Error reading uploaded images"

/-- Embedding of the `analyze` route (`app.py` lines 55-120): check both
files are present, validate user info (any parse/validation failure → 400),
save the uploads, decode them with `cv2.imread` (`None` → 400), generate the
report (exception → 500), then write the report slot and answer 200 with the
report URL. -/
def analyze (dec : String → Option ColorImage)
    (genReport : ColorImage → ColorImage → UserInfo → Except String String)
    (st : ServerState) (req : AnalyzeRequest) : ServerState × Response :=
  match req.spiral_file, req.wave_file with
  | some sf, some wf =>
    match req.user_info with
    | none => (st, Response.clientError msgInvalidUser)
    | some u =>
      if valid_user_info u then
        let st1 := { st with spiralUpload := some sf, waveUpload := some wf }
        match dec sf, dec wf with
        | some simg, some wimg =>
          match genReport simg wimg u with
          | Except.ok html =>
              ({ st1 with reportSlot := some html },
               Response.ok "static/reports/report.html")
          | Except.error e => (st1, Response.serverError e)
        | _, _ => (st1, Response.clientError msgBadImages)
      else (st, Response.clientError msgInvalidUser)
  | _, _ => (st, Response.clientError msgBothRequired)

/-- C4: the analyze endpoint (with both files present) gets past user-info
validation iff the parsed field has a non-empty stripped name, an age that
converted to an integer in [18,60] (inclusive), and a stripped gender among
"Male"/"Female"/"Other"; every failure of this predicate — including an
unparseable `user_info` field, modelled by `none` — yields the structured
client error (HTTP 400) with the validation message. -/
theorem analyze_user_info_validation
    (dec : String → Option ColorImage)
    (genReport : ColorImage → ColorImage → UserInfo → Except String String)
    (st : ServerState) (sf wf : String) (ui : Option UserInfo) :
    (∀ u : UserInfo, valid_user_info u = true
        ↔ (pyStrip u.name ≠ "" ∧ 18 ≤ u.age ∧ u.age ≤ 60
            ∧ (pyStrip u.gender = "Male" ∨ pyStrip u.gender = "Female"
                ∨ pyStrip u.gender = "Other")))
  ∧ ((analyze dec genReport st ⟨some sf, some wf, ui⟩).2
        = Response.clientError msgInvalidUser
      ↔ ¬ ∃ u, ui = some u ∧ valid_user_info u = true) := by
  constructor
  · intro u
    simp [valid_user_info, and_assoc, or_assoc]
  · cases ui with
    | none => simp [analyze]
    | some u =>
        by_cases hv : valid_user_info u
        · rcases hd1 : dec sf with _ | simg
          · rcases hd2 : dec wf with _ | wimg <;>
              simp [analyze, hv, hd1, hd2, msgBadImages, msgInvalidUser]
          · rcases hd2 : dec wf with _ | wimg
            · simp [analyze, hv, hd1, hd2, msgBadImages, msgInvalidUser]
            · cases hg : genReport simg wimg u with
              | error e => simp [analyze, hv, hd1, hd2, hg]
              | ok html => simp [analyze, hv, hd1, hd2, hg]
        · have hv' : valid_user_info u = false := Bool.eq_false_iff.mpr hv
          simp [analyze, hv']

/-- C5: a request missing either upload is answered by the structured client
error with the "Both spiral and wave drawings are required" message and the
whole server state — in particular the shared report slot — is unchanged;
more generally, on every caller-facing failure (any non-200 response) the
report slot keeps its previous contents: report generation is
all-or-nothing. -/
theorem analyze_all_or_nothing
    (dec : String → Option ColorImage)
    (genReport : ColorImage → ColorImage → UserInfo → Except String String)
    (st : ServerState) (req : AnalyzeRequest) :
    ((req.spiral_file = none ∨ req.wave_file = none) →
        analyze dec genReport st req = (st, Response.clientError msgBothRequired))
  ∧ ((∀ url, (analyze dec genReport st req).2 ≠ Response.ok url) →
        (analyze dec genReport st req).1.reportSlot = st.reportSlot) := by
  obtain ⟨osf, owf, oui⟩ := req
  constructor
  · intro h
    rcases h with h | h
    · simp only at h
      subst h
      simp [analyze]
    · simp only at h
      subst h
      rcases osf with _ | sf <;> simp [analyze]
  · rcases osf with _ | sf
    · intro _; simp [analyze]
    · rcases owf with _ | wf
      · intro _; simp [analyze]
      · rcases oui with _ | u
        · intro _; simp [analyze]
        · by_cases hv : valid_user_info u
          · rcases hd1 : dec sf with _ | simg
            · intro _
              rcases hd2 : dec wf with _ | wimg <;> simp [analyze, hv, hd1, hd2]
            · rcases hd2 : dec wf with _ | wimg
              · intro _; simp [analyze, hv, hd1, hd2]
              · cases hg : genReport simg wimg u with
                | error e => intro _; simp [analyze, hv, hd1, hd2, hg]
                | ok html =>
                    intro hno
                    exfalso
                    apply hno "static/reports/report.html"
                    simp [analyze, hv, hd1, hd2, hg]
          · have hv' : valid_user_info u = false := Bool.eq_false_iff.mpr hv
            intro _
            simp [analyze, hv']

/-- Image decoder that always fails (used only in concrete witnesses). -/
def decNone : String → Option ColorImage := fun _ => none

/-- Report generator stub (used only in concrete witnesses). -/
def genReportStub : ColorImage → ColorImage → UserInfo → Except String String :=
  fun _ _ _ => Except.error "stub"

/-- Server state holding a previous report (used in concrete witnesses). -/
def st0 : ServerState := ⟨some "old report", none, none⟩

/-- Witness for C5: a request with no spiral upload gets the 400 message and
leaves the state, hence the report slot, untouched. -/
theorem analyze_all_or_nothing_witness :
    analyze decNone genReportStub st0 ⟨none, some "wavebytes", some ⟨"John", 30, "Male"⟩⟩
      = (st0, Response.clientError msgBothRequired) :=
  (analyze_all_or_nothing decNone genReportStub st0
    ⟨none, some "wavebytes", some ⟨"John", 30, "Male"⟩⟩).1 (Or.inl rfl)

/-- Witness for C4: age 61 is rejected with the validation message. -/
theorem analyze_user_info_validation_witness :
    (analyze decNone genReportStub st0
        ⟨some "s", some "w", some ⟨"John", 61, "Male"⟩⟩).2
      = Response.clientError msgInvalidUser := by
  apply (analyze_user_info_validation decNone genReportStub st0 "s" "w"
    (some ⟨"John", 61, "Male"⟩)).2.mpr
  rintro ⟨u, hu, hv⟩
  cases Option.some.inj hu
  exact absurd hv (by decide)

/-! ## Report rendering (`utils/report_generator.py`, lines 95-374).

`generate_report`'s string assembly: the two scalar predictions and the four
base64-encoded PNG payloads enter as parameters (model inference, Grad-CAM,
overlay compositing and PNG encoding are external library computations), and
the two `datetime.now()` reads enter through the `now` parameter, formatted
with `%B %d, %Y` for the report header and `%Y%m%d` for the PDF filename. -/

/-- A calendar date as observed from `datetime.now()`. -/
structure PyDate where
  year : Nat
  month : Nat
  day : Nat
deriving DecidableEq, Repr

/-- Full month name as produced by `strftime("%B")`. -/
def monthName : Nat → String
  | 1 => "January"
  | 2 => "February"
  | 3 => "March"
  | 4 => "April"
  | 5 => "May"
  | 6 => "June"
  | 7 => "July"
  | 8 => "August"
  | 9 => "September"
  | 10 => "October"
  | 11 => "November"
  | 12 => "December"
  | _ => ""

/-- Two-digit zero padding as in `strftime("%d")` / `strftime("%m")`. -/
def pad2 (n : Nat) : String := if n < 10 then "0" ++ toString n else toString n

/-- `datetime.now().strftime("%B %d, %Y")` (report header date). -/
def strftimeLong (d : PyDate) : String :=
  monthName d.month ++ " " ++ pad2 d.day ++ ", " ++ toString d.year

/-- `datetime.now().strftime("%Y%m%d")` (PDF filename date). -/
def strftimeYMD (d : PyDate) : String :=
  toString d.year ++ pad2 d.month ++ pad2 d.day

/-- Round to the nearest integer, ties to even, as Python float formatting
does on the (here exact) value. -/
def roundHalfEven (q : ℚ) : ℤ :=
  let f := ⌊q⌋
  let r := q - (f : ℚ)
  if r < 1/2 then f
  else if (1 : ℚ)/2 < r then f + 1
  else if f % 2 = 0 then f else f + 1

/-- Python `f"{x:.2%}"` on a value in [0,1]: percentage with two decimal
places and a percent sign. -/
def formatPercent2 (q : ℚ) : String :=
  let n := (roundHalfEven (q * 10000)).toNat
  toString (n / 100) ++ "." ++ pad2 (n % 100) ++ "%"

/-- Python `str(name).replace(' ', '_')` (line 101). -/
def pyReplaceSpaces (s : String) : String :=
  ⟨s.data.map fun c => if c == ' ' then '_' else c⟩
/-- The HTML f-string template of `generate_report` (lines 104-373) with its
fourteen interpolation holes as parameters, in source order. -/
def renderReportHtml (dateLong name age gender result_message
    confidencePct confidence_source next_steps gradcam_desc
    spiral_b64 spiral_overlay_b64 wave_b64 wave_overlay_b64
    pdf_filename : String) : String :=
  "\n        <!DOCTYPE html>\n        <html>\n        <head>\n            <title>Parkinson\x27s Early Detection Report</title>\n            <script src=\x27https://cdnjs.cloudflare.com/ajax/libs/html2pdf.js/0.10.1/html2pdf.bundle.min.js\x27></script>\n            <style>\n                @page \x7b size: A4; margin: 0; \x7d\n                body \x7b\n                    font-family: \x27Segoe UI\x27, Arial, sans-serif;\n                    margin: 0;\n                    padding: 20px;\n                    background: white;\n                    color: #333;\n                    display: flex;\n                    justify-content: center;\n                \x7d\n                .report-container \x7b\n                    max-width: 165mm;  /* Fine-tuned from 170mm */\n                    margin: 0 auto;\n                    padding: 15mm;  /* Reduced from 20mm */\n                    background: white;\n                    box-shadow: 0 0 10px rgba(0,0,0,0.1);\n                    font-size: 11px;\n                \x7d\n                h1, h2 \x7b\n                    color: #2c3e50;\n                    margin: 0 0 15px 0;\n                \x7d\n                .report-header \x7b\n                    text-align: center;\n                    border-bottom: 2px solid #27ae60;\n                    padding-bottom: 20px;\n                    margin-bottom: 30px;\n                \x7d\n                .report-header h1 \x7b\n                    font-size: 24px;  /* Reduced from 28px */\n                \x7d\n                .date \x7b\n                    color: #666;\n                    font-size: 14px;  /* Reduced from 16px */\n                \x7d\n                .section \x7b\n                    margin-bottom: 30px;\n                    padding: 20px;\n                    border-radius: 8px;\n                    background: #fff;\n                    box-shadow: 0 2px 4px rgba(0,0,0,0.05);\n                \x7d\n                .patient-info \x7b\n                    background: #f8f9fa;\n                \x7d\n                .result-section \x7b\n                    background: #e8f5e9;\n                    border-left: 4px solid #27ae60;\n                \x7d\n                .confidence-box \x7b\n                    margin: 15px 0;\n                    padding: 10px;\n                    background: rgba(255,255,255,0.7);\n                    border-radius: 4px;\n                \x7d\n                .images-section \x7b\n                    text-align: center;\n                \x7d\n                .image-container \x7b\n                    display: flex;\n                    justify-content: space-between;\n                    gap: 20px;\n                    margin-bottom: 20px;\n                    width: 100%;\n                \x7d\n                .image-block \x7b\n                    flex: 1;\n                    background: #f8f9fa;\n                    padding: 15px;\n                    border-radius: 8px;\n                    box-shadow: 0 2px 4px rgba(0,0,0,0.05);\n                \x7d\n                .image-block h3 \x7b\n                    margin: 0 0 15px 0;\n                    font-size: 16px;\n                    color: #2c3e50;\n                \x7d\n                .image-block img \x7b\n                    width: 100%;\n                    height: 150px;  /* Reduced from 180px */\n                    object-fit: contain;\n                    border: 1px solid #ddd;\n                    border-radius: 4px;\n                    background: white;\n                \x7d\n                .resources-list \x7b\n                    list-style: none;\n                    padding: 0;\n                    margin: 0;\n                \x7d\n                .resources-list li \x7b\n                    margin-bottom: 20px;\n                    padding: 15px;\n                    background: #f8f9fa;\n                    border-radius: 4px;\n                \x7d\n                .resource-link \x7b\n                    color: #27ae60;\n                    text-decoration: none;\n                    font-weight: bold;\n                    font-size: 16px;\n                \x7d\n                .resource-desc \x7b\n                    display: block;\n                    color: #666;\n                    margin-top: 8px;\n                    line-height: 1.4;\n                \x7d\n                .disclaimer \x7b\n                    background: #fff3e0;\n                    font-size: 14px;\n                    line-height: 1.6;\n                \x7d\n                .gradcam-description \x7b\n                    background: #f8f9fa;\n                    padding: 15px;\n                    border-radius: 8px;\n                    line-height: 1.8;\n                \x7d\n                .gradcam-description p \x7b\n                    margin: 0;\n                \x7d\n                @media print \x7b\n                    body \x7b \n                        margin: 0;\n                        padding: 0;\n                        background: white;\n                        display: flex;\n                        justify-content: center;\n                    \x7d\n                    .report-container \x7b \n                        width: 155mm;  /* Fine-tuned from 160mm */\n                        margin: 0 auto;\n                        padding: 12mm;  /* Reduced from 15mm */\n                        box-shadow: none;\n                    \x7d\n                    .section \x7b\n                        break-inside: avoid;\n                    \x7d\n                \x7d\n            </style>\n        </head>\n        <body>\n            <div class=\"report-container\">\n                <div class=\"report-header\">\n                    <h1>Parkinson\x27s Early Detection Report</h1>\n                    <div class=\"date\">Date: "
    ++ dateLong
    ++ "</div>\n                </div>\n\n                <div class=\"section patient-info\">\n                    <h2>Patient Information</h2>\n                    <div style=\"margin: 10px 0;\"><strong>Name:</strong> "
    ++ name
    ++ "</div>\n                    <div style=\"margin: 10px 0;\"><strong>Age:</strong> "
    ++ age
    ++ "</div>\n                    <div style=\"margin: 10px 0;\"><strong>Gender:</strong> "
    ++ gender
    ++ "</div>\n                </div>\n\n                <div class=\"section result-section\">\n                    <h2>Analysis Result</h2>\n                    <div style=\"margin: 15px 0;\"><strong>"
    ++ result_message
    ++ "</strong></div>\n                    <div class=\"confidence-box\">\n                        <strong>Confidence Level:</strong> "
    ++ confidencePct
    ++ " <span style=\"color:#666;\">("
    ++ confidence_source
    ++ ")</span>\n                    </div>\n                    <div style=\"margin: 15px 0;\"><strong>Recommended Action:</strong> "
    ++ next_steps
    ++ "</div>\n                </div>\n\n                <div class=\"section images-section\">\n                    <h2>Drawing Analysis</h2>\n                    <div style=\"margin-bottom: 20px;\" class=\"gradcam-description\">\n                        <p style=\"white-space: pre-line;\">"
    ++ gradcam_desc
    ++ "</p>\n                    </div>\n                    <div class=\"image-row\">\n                        <div class=\"image-container\">\n                            <div class=\"image-block\">\n                                <h3>Spiral Drawing - Original</h3>\n                                <img src=\"data:image/png;base64,"
    ++ spiral_b64
    ++ "\" alt=\"Original Spiral\">\n                            </div>\n                            <div class=\"image-block\">\n                                <h3>Spiral Drawing - Analysis</h3>\n                                <img src=\"data:image/png;base64,"
    ++ spiral_overlay_b64
    ++ "\" alt=\"Spiral Analysis\">\n                            </div>\n                        </div>\n                    </div>\n                    <div class=\"image-row\">\n                        <div class=\"image-container\">\n                            <div class=\"image-block\">\n                                <h3>Wave Drawing - Original</h3>\n                                <img src=\"data:image/png;base64,"
    ++ wave_b64
    ++ "\" alt=\"Original Wave\">\n                            </div>\n                            <div class=\"image-block\">\n                                <h3>Wave Drawing - Analysis</h3>\n                                <img src=\"data:image/png;base64,"
    ++ wave_overlay_b64
    ++ "\" alt=\"Wave Analysis\">\n                            </div>\n                        </div>\n                    </div>\n                </div>\n\n                <div class=\"section resources\">\n                    <h2>Educational Resources</h2>\n                    <ul class=\"resources-list\">\n                        <li>\n                            <a class=\"resource-link\" href=\"https://www.parkinson.org/\" target=\"_blank\">Parkinson\x27s Foundation</a>\n                            <span class=\"resource-desc\">Comprehensive information, support, and resources for people with Parkinson\x27s and their families.</span>\n                        </li>\n                        <li>\n                            <a class=\"resource-link\" href=\"https://www.michaeljfox.org/\" target=\"_blank\">Michael J. Fox Foundation</a>\n                            <span class=\"resource-desc\">Leading research, news, and community support for Parkinson\x27s disease.</span>\n                        </li>\n                        <li>\n                            <a class=\"resource-link\" href=\"https://www.pdf.org/\" target=\"_blank\">Parkinson\x27s Disease Foundation</a>\n                            <span class=\"resource-desc\">Educational materials, research updates, and support programs for Parkinson\x27s patients.</span>\n                        </li>\n                    </ul>\n                </div>\n\n                <div class=\"section disclaimer\">\n                    <h2>Medical Disclaimer</h2>\n                    <p style=\"margin: 10px 0;\">This report is for informational purposes only and does not constitute a formal medical diagnosis. The analysis is based on computer vision algorithms and should not be used as a substitute for professional medical evaluation.</p>\n                    <p style=\"margin: 10px 0;\">If you have concerns about Parkinson\x27s disease or any other medical condition, please consult with a qualified healthcare provider.</p>\n                </div>\n            </div>\n\n            <script>\n                function downloadPDF() \x7b\n                    const element = document.querySelector(\x27.report-container\x27);\n                    const opt = \x7b\n                        filename: \x27"
    ++ pdf_filename
    ++ "\x27,\n                        margin: [5, 8, -5, -85],  /* Fine-tuned margins [top, right, bottom, left] */\n                        image: \x7b type: \x27jpeg\x27, quality: 1.00 \x7d,\n                        html2canvas: \x7b \n                            scale: 1.45,  /* Fine-tuned from 1.5 */\n                            useCORS: true,\n                            letterRendering: true,\n                            scrollY: 0,\n                            windowWidth: element.offsetWidth,\n                            windowHeight: element.offsetHeight\n                        \x7d,\n                        jsPDF: \x7b \n                            unit: \x27mm\x27,\n                            format: \x27a4\x27,\n                            orientation: \x27portrait\x27,\n                            hotfixes: [\"px_scaling\"],\n                            compress: true\n                        \x7d,\n                        pagebreak: \x7b mode: [\x27avoid-all\x27, \x27css\x27, \x27legacy\x27] \x7d\n                    \x7d;\n                    html2pdf().set(opt).from(element).save();\n                \x7d\n            </script>\n            <div style=\"text-align:center;margin:20px;\">\n                <button onclick=\"downloadPDF()\" style=\"\n                    background: #27ae60;\n                    color: white;\n                    border: none;\n                    padding: 10px 20px;\n                    border-radius: 5px;\n                    cursor: pointer;\n                    font-size: 16px;\">\n                    Download as PDF\n                </button>\n            </div>\n        </body>\n        </html>\n        "

/-- Embedding of the assembly tail of `ReportGenerator.generate_report`:
fuse the two predictions, select the narrative from the confidence level,
build `safe_name` and `pdf_filename`, and substitute everything (plus the
current date) into the HTML template. -/
def generate_report (spiral_pred wave_pred : ℚ)
    (spiral_b64 wave_b64 spiral_overlay_b64 wave_overlay_b64 : String)
    (name age gender : String) (now : PyDate) : String :=
  let fr := fuseDecision spiral_pred wave_pred
  let nar := narrativeFor fr.confidence_level
  let safe_name := pyReplaceSpaces name
  let pdf_filename := "Parkinsons_Report_" ++ safe_name ++ "_" ++ strftimeYMD now ++ ".pdf"
  renderReportHtml (strftimeLong now) name age gender nar.result_message
    (formatPercent2 fr.confidence_level) fr.confidence_source nar.next_steps
    nar.gradcam_desc spiral_b64 spiral_overlay_b64 wave_b64 wave_overlay_b64
    pdf_filename

/-- Two string concatenations sharing a prefix differ when the next pieces
start with different characters. -/
lemma append_head_ne (p a b r1 r2 : String) (ca cb : Char) (ta tb : List Char)
    (ha : a.data = ca :: ta) (hb : b.data = cb :: tb) (hne : ca ≠ cb) :
    p ++ (a ++ r1) ≠ p ++ (b ++ r2) := by
  intro h
  have hd := congrArg String.data h
  rw [String.data_append, String.data_append, String.data_append,
      String.data_append] at hd
  have h2 := List.append_cancel_left hd
  rw [ha, hb, List.cons_append, List.cons_append] at h2
  injection h2 with h3 _
  exact hne h3

/-- C9 counterexample: with every one of the listed report inputs (processed
and overlay image payloads, predictions, name/age/gender) held fixed, two
runs of report generation on different current dates (May 1 2025 versus
June 1 2025) produce different HTML documents — `generate_report` reads
`datetime.now()`, so it is not a pure function of the listed inputs alone. -/
theorem generate_report_depends_on_current_date :
    generate_report 0.3 0.3 "sb" "wb" "so" "wo" "Jane" "30" "Female" ⟨2025, 5, 1⟩
      ≠ generate_report 0.3 0.3 "sb" "wb" "so" "wo" "Jane" "30" "Female" ⟨2025, 6, 1⟩ := by
  have hfd : fuseDecision 0.3 0.3 = ⟨0.3, "Negative", false⟩ := by
    unfold fuseDecision
    rw [if_pos (by norm_num : (0.3 : ℚ) ≤ 0.5)]
  have hnar : narrativeFor (0.3 : ℚ) = negNarrative := by
    unfold narrativeFor
    rw [if_pos (by norm_num : (0.3 : ℚ) ≤ 0.5)]
  have hfmt : formatPercent2 (0.3 : ℚ) = "30.00%" := by
    have h : (0.3 : ℚ) * 10000 = 3000 := by norm_num
    have hr : roundHalfEven ((0.3 : ℚ) * 10000) = 3000 := by
      rw [h]
      unfold roundHalfEven
      norm_num
    unfold formatPercent2
    rw [hr]
    rfl
  have e1 : generate_report 0.3 0.3 "sb" "wb" "so" "wo" "Jane" "30" "Female" ⟨2025, 5, 1⟩
      = renderReportHtml "May 01, 2025" "Jane" "30" "Female"
          negNarrative.result_message "30.00%" "Negative" negNarrative.next_steps
          negNarrative.gradcam_desc "sb" "so" "wb" "wo"
          "Parkinsons_Report_Jane_20250501.pdf" := by
    unfold generate_report
    rw [hfd]
    dsimp only
    rw [hnar, hfmt]
    rfl
  have e2 : generate_report 0.3 0.3 "sb" "wb" "so" "wo" "Jane" "30" "Female" ⟨2025, 6, 1⟩
      = renderReportHtml "June 01, 2025" "Jane" "30" "Female"
          negNarrative.result_message "30.00%" "Negative" negNarrative.next_steps
          negNarrative.gradcam_desc "sb" "so" "wb" "wo"
          "Parkinsons_Report_Jane_20250601.pdf" := by
    unfold generate_report
    rw [hfd]
    dsimp only
    rw [hnar, hfmt]
    rfl
  rw [e1, e2]
  intro hEq
  unfold renderReportHtml at hEq
  simp only [String.append_assoc] at hEq
  exact absurd hEq (append_head_ne _ _ _ _ _ 'M' 'J' _ _ rfl rfl (by decide))

/-- C9 (amended): report generation is deterministic given the current date —
it is a pure function of the fixed report inputs (processed/overlay image
payloads, predictions, name/age/gender) together with `datetime.now()`, and
the current date enters the output only through the two formatted date
strings (the report header date and the PDF-filename date): any two runs
whose formatted dates agree produce the identical HTML document, built by
pure string construction with images embedded as base64 data URIs. -/
theorem generate_report_pure_given_date
    (ps pw : ℚ) (sb wb so wo nm ag gd : String) (d1 d2 : PyDate)
    (h1 : strftimeLong d1 = strftimeLong d2)
    (h2 : strftimeYMD d1 = strftimeYMD d2) :
    generate_report ps pw sb wb so wo nm ag gd d1
      = generate_report ps pw sb wb so wo nm ag gd d2 := by
  unfold generate_report
  rw [h1, h2]

/-- Witness for the amended C9 at concrete inputs and a fixed date. -/
theorem generate_report_pure_given_date_witness :
    generate_report 0.3 0.9 "sb" "wb" "so" "wo" "Jane" "30" "Female" ⟨2025, 5, 1⟩
      = generate_report 0.3 0.9 "sb" "wb" "so" "wo" "Jane" "30" "Female" ⟨2025, 5, 1⟩ :=
  generate_report_pure_given_date 0.3 0.9 "sb" "wb" "so" "wo" "Jane" "30" "Female"
    ⟨2025, 5, 1⟩ ⟨2025, 5, 1⟩ rfl rfl
